import Mathlib

/-!
# Verification development for `notion2md_to_hugo`

A shallow embedding, in Lean 4, of the core logic of the repository
`jacky10001/notion2md_to_hugo` (files `notion2md.py` and `main.py`),
together with theorems settling the behavioural claims about it.

Conventions used throughout:

* Python strings are Lean `String`s, Python byte strings are `List Nat`
  (each entry a byte value).
* Python code that can raise runs in `Except PyErr`; the `PyErr`
  constructors name the Python exception class that would be raised.
* Python dictionaries read with `.get(key, default)` are embedded as
  structures whose fields carry the corresponding default; a key whose
  *absence* is observable (because the code later subscripts the dict)
  is embedded as an `Option` field, with `none` standing for the absent
  key.
* Side effects that do not influence the produced text (logging,
  `print`) are dropped.
-/

set_option maxRecDepth 100000

/-- Python exceptions that the embedded code can raise. -/
inductive PyErr where
  | typeError (msg : String)
  | attributeError (msg : String)
  | indexError (msg : String)
  | keyError (msg : String)
deriving DecidableEq, Repr

/-! ## Inline runs and annotations (`notion2md.py`, lines 35–58) -/

/-- The raw `annotations` dictionary of an inline run as delivered by the
API: every key may be absent (`none`). Mirrors the argument `data` of
`ElementAnnotations.__init__` (line 36). -/
structure AnnotationsData where
  bold? : Option Bool := none
  italic? : Option Bool := none
  strikethrough? : Option Bool := none
  underline? : Option Bool := none
  code? : Option Bool := none
  color? : Option String := none
deriving DecidableEq, Repr

/-- The `ElementAnnotations` object after `__init__` has applied the
`data.get(key, default)` defaults (lines 37–42). -/
structure ElementAnnotations where
  bold : Bool
  italic : Bool
  strikethrough : Bool
  underline : Bool
  code : Bool
  color : String
deriving DecidableEq, Repr

/-- Embeds `ElementAnnotations.__init__` (lines 36–42): each flag defaults to
`False`, the color defaults to `"default"`. -/
def ElementAnnotations.ofData (data : AnnotationsData) : ElementAnnotations where
  bold := data.bold?.getD false
  italic := data.italic?.getD false
  strikethrough := data.strikethrough?.getD false
  underline := data.underline?.getD false
  code := data.code?.getD false
  color := data.color?.getD "default"

/-- Embeds `ElementAnnotations.parse_text` (lines 44–58): sequentially wraps the
text for each enabled flag, in the order bold, italic, strikethrough,
underline, code, and finally the color wrap when the color is not
`"default"`. -/
def ElementAnnotations.parse_text (self : ElementAnnotations) (text : String) : String :=
  let parsed_text := text
  let parsed_text := if self.bold then "**" ++ parsed_text ++ "**" else parsed_text
  let parsed_text := if self.italic then "*" ++ parsed_text ++ "*" else parsed_text
  let parsed_text := if self.strikethrough then "~~" ++ parsed_text ++ "~~" else parsed_text
  let parsed_text := if self.underline then "<u>" ++ parsed_text ++ "</u>" else parsed_text
  let parsed_text := if self.code then "`" ++ parsed_text ++ "`" else parsed_text
  let parsed_text :=
    if self.color ≠ "default" then "<font color=" ++ self.color ++ ">" ++ parsed_text ++ "</font>"
    else parsed_text
  parsed_text

/-- One inline run (an element of a block's `rich_text` list). The
defaults mirror the `.get(key, fallback)` calls of
`_handle_element_base` (lines 98–100) and `handle_element_mention`
(lines 284–290); an absent `href` and a `None` `href` are both embedded
as `""`, which is exactly what the code's truthiness test `if href:`
distinguishes. `mention_type` is `mention.get('type')` with absence
embedded as `""`; `mention_page_id` is `i["mention"]["page"]["id"]` as
read by `Notion.get_page_id` (`main.py`, line 84). -/
structure InlineElement where
  type : String := ""
  plain_text : String := ""
  href : String := ""
  annotations : AnnotationsData := {}
  mention_type : String := ""
  mention_page_id : String := ""
deriving DecidableEq, Repr

/-- Embeds `NotionToMarkdown._handle_element_base` (lines 96–105): start from
`plain_text`, wrap as `[text](href)` when `href` is truthy, then apply
the annotation wraps. -/
def handle_element_base (element : InlineElement) : String :=
  let plain_text := element.plain_text
  let href := element.href
  let annotations := ElementAnnotations.ofData element.annotations
  let parsed_text := plain_text
  let parsed_text := if href ≠ "" then "[" ++ parsed_text ++ "](" ++ href ++ ")" else parsed_text
  annotations.parse_text parsed_text

/-- Embeds `proc_unsupport_block` (lines 31–32). -/
def proc_unsupport_block (text : String) : String := "Bot msg: " ++ text

/-- Embeds `NotionToMarkdown.handle_element_text` (lines 107–109). -/
def handle_element_text (element : InlineElement) : String :=
  handle_element_base element

/-- Embeds `NotionToMarkdown.handle_element_mention` (lines 284–290): only the
`link_preview` sub-kind is supported, everything else becomes a
placeholder string. -/
def handle_element_mention (element : InlineElement) : String :=
  if element.mention_type ≠ "link_preview" then
    proc_unsupport_block "不支持mention元素link_preview外的類型"
  else handle_element_base element

/-- The `getattr(self, f'handle_element_{element_type}')(element)`
dispatch of `_handle_text_block_base` (line 119): only `text` and
`mention` handlers exist; any other element type makes `getattr` raise
`AttributeError`. -/
def handleElement (element : InlineElement) : Except PyErr String :=
  if element.type = "text" then .ok (handle_element_text element)
  else if element.type = "mention" then .ok (handle_element_mention element)
  else .error (.attributeError
    ("NotionToMarkdown object has no attribute handle_element_" ++ element.type))

/-- The `for element in texts: block_text += ...` loop of
`_handle_text_block_base` (lines 116–119). -/
def handleElements : List InlineElement → Except PyErr String
  | [] => .ok ""
  | element :: rest => do
      let t ← handleElement element
      let r ← handleElements rest
      .ok (t ++ r)

/-! ### Specification-side inline formatter (for refinement comparison)

`specInlineFormat` is written from the specification's words, not from
the code: "starts from the run's plain_text, wraps it as `[text](href)`
when an href is present, and then applies the annotation wraps in the
exact fixed order bold, then italic, then strikethrough, then underline,
then code, then color-wrap, skipping each wrap whose flag is false or
absent and applying the color wrap only when color is not `default`". -/

/-- The spec's ordered list of (flag, wrap) pairs for an annotation set. -/
def specAnnotWrapList (a : ElementAnnotations) : List (Bool × (String → String)) :=
  [ (a.bold, fun s => "**" ++ s ++ "**")
  , (a.italic, fun s => "*" ++ s ++ "*")
  , (a.strikethrough, fun s => "~~" ++ s ++ "~~")
  , (a.underline, fun s => "<u>" ++ s ++ "</u>")
  , (a.code, fun s => "`" ++ s ++ "`")
  , (a.color ≠ "default", fun s => "<font color=" ++ a.color ++ ">" ++ s ++ "</font>") ]

/-- Inline formatting as the specification words it: href wrap first,
then the fixed-order conditional wraps, each skipped when its flag is
off. -/
def specInlineFormat (element : InlineElement) : String :=
  let base :=
    if element.href ≠ "" then "[" ++ element.plain_text ++ "](" ++ element.href ++ ")"
    else element.plain_text
  (specAnnotWrapList (ElementAnnotations.ofData element.annotations)).foldl
    (fun t fw => if fw.1 then fw.2 t else t) base

/-! ## Child-database rows (`notion2md.py`, lines 200–243)

The handler queries `self.notion.databases.query(database_id, **kwargs)`
in a loop. The environment's successive responses are embedded as a list
of `DBPage`s consumed in order; the loop stops at the first page whose
`next_cursor` is absent (line 223–226). -/

/-- One property value of a database row (`field_data`). Only the
`type` key is relevant: the row-text extraction call at line 219 raises
before reading anything else (see `callHandleTextBlockBaseKw`). Absence
of the `type` key is `none`. -/
structure DBFieldData where
  type? : Option String := none
deriving DecidableEq, Repr

/-- One row of a queried database (`item`): its `properties` dict as an
association list in iteration order. -/
structure DBRow where
  properties : List (String × DBFieldData) := []
deriving DecidableEq, Repr

/-- One response of `databases.query`: the `results` list and the
optional `next_cursor`. -/
structure DBPage where
  results : List DBRow := []
  next_cursor : Option String := none
deriving DecidableEq, Repr

/-- The parameter names of `_handle_text_block_base` after `self`
(line 111: `def _handle_text_block_base(self, block, level=0)`). -/
def handleTextBlockBaseParams : List String := ["block", "level"]

/-- Line 219: `self._handle_text_block_base(field_data, has_text_field=False)`.
In Python a call whose keyword argument matches no declared parameter
raises `TypeError` before the callee's body runs; `_handle_text_block_base`
declares only `block` and `level`, so the guard below is provably false
and the `.ok` branch (which would run the body) is unreachable. -/
def callHandleTextBlockBaseKw (_field_data : DBFieldData) : Except PyErr String :=
  if ["has_text_field"].all (fun k => handleTextBlockBaseParams.contains k) then
    .ok ""
  else
    .error (.typeError
      "_handle_text_block_base() got an unexpected keyword argument has_text_field")

/-- Lines 214–220: the `for field_name, field_data in properties.items()`
loop of one row; tracks `title_field` and builds `row_dict` in insertion
order. -/
def dbProcessProps (title_field : String) :
    List (String × DBFieldData) → Except PyErr (String × List (String × String))
  | [] => .ok (title_field, [])
  | (field_name, field_data) :: rest => do
      let tf := if field_data.type? = some "title" then field_name else title_field
      let field_text ← callHandleTextBlockBaseKw field_data
      let (tf2, restRow) ← dbProcessProps tf rest
      .ok (tf2, (field_name, field_text) :: restRow)

/-- Lines 213–221: the `for item in results` loop, appending each
`row_dict` to `table_list`. -/
def dbProcessRows (title_field : String) :
    List DBRow → Except PyErr (String × List (List (String × String)))
  | [] => .ok (title_field, [])
  | row :: rest => do
      let (tf, rowDict) ← dbProcessProps title_field row.properties
      let (tf2, more) ← dbProcessRows tf rest
      .ok (tf2, rowDict :: more)

/-- Lines 209–226: the `while True` pagination loop; follows
`next_cursor` until it is absent (a model page list that runs out also
ends the loop — the real API always answers each query). -/
def dbQueryLoop (title_field : String) :
    List DBPage → Except PyErr (String × List (List (String × String)))
  | [] => .ok (title_field, [])
  | page :: rest => do
      let (tf, rows) ← dbProcessRows title_field page.results
      match page.next_cursor with
      | some _ => do
          let (tf2, more) ← dbQueryLoop tf rest
          .ok (tf2, rows ++ more)
      | none => .ok (tf, rows)

/-- First-occurrence deduplication, standing in for the `set()` at lines
228–235. CPython's set iteration order is unspecified; this choice is
immaterial here because every reachable `.ok` path has an empty field
set (any row with a property raises at line 219). -/
def dedupKeep (seen : List String) : List String → List String
  | [] => []
  | x :: rest => if seen.contains x then dedupKeep seen rest else x :: dedupKeep (x :: seen) rest

/-- Python `sep.join(xs)`. -/
def joinSep (sep : String) : List String → String
  | [] => ""
  | [x] => x
  | x :: y :: rest => x ++ sep ++ joinSep sep (y :: rest)

/-- Python `s * n` (here used as `'  ' * level` and `'|' * width`). -/
def strRepeat (s : String) : Nat → String
  | 0 => ""
  | n + 1 => s ++ strRepeat s n

/-! ## Blocks and the renderer (`notion2md.py`, lines 61–337) -/

/-- The type-specific payload of a block, flattening the
`block[block_type]` sub-dictionary. Field defaults mirror the
`.get(key, fallback)` defaults at the reading sites. -/
structure BlockPayload where
  rich_text : List InlineElement := []
  checked : Bool := false
  language : String := ""
  image_type : String := ""
  image_url : String := ""
  bookmark_url : String := ""
  table_width : Nat := 0
  has_column_header : Bool := false
  has_row_header : Bool := false
  cells : List (List InlineElement) := []
  icon_type : String := ""
  icon_emoji : String := ""
  icon_external_url : String := ""
  db_pages : List DBPage := []

mutual
/-- One content block. `children` embeds what
`get_blocks(block['id'])` returns for this block (the block source's
first page of children, see `get_blocks` below). -/
inductive Block where
  | mk (type : String) (has_children : Bool) (payload : BlockPayload) (children : BlockList)
/-- An ordered list of sibling blocks (a dedicated list type so that the
tree walker is structurally recursive). -/
inductive BlockList where
  | nil
  | cons (head : Block) (tail : BlockList)
end

def Block.type : Block → String
  | .mk t _ _ _ => t

def Block.has_children : Block → Bool
  | .mk _ hc _ _ => hc

def Block.payload : Block → BlockPayload
  | .mk _ _ p _ => p

def Block.children : Block → BlockList
  | .mk _ _ _ c => c

/-- Embeds `_handle_text_block_base` for ordinary blocks (lines 111–120):
formats every inline run of the block's `rich_text` list and
concatenates, dispatching per element type. -/
def handle_text_block_base (block : Block) : Except PyErr String :=
  handleElements block.payload.rich_text

/-- Embeds `handle_block_paragraph` (lines 122–125). -/
def handle_block_paragraph (block : Block) (_level : Nat) : Except PyErr String :=
  handle_text_block_base block

/-- Embeds `handle_block_numbered_list_item` (lines 127–131). -/
def handle_block_numbered_list_item (block : Block) (_level : Nat) : Except PyErr String := do
  let block_text ← handle_text_block_base block
  .ok ("1. " ++ block_text)

/-- Embeds `handle_block_bulleted_list_item` (lines 133–137). -/
def handle_block_bulleted_list_item (block : Block) (_level : Nat) : Except PyErr String := do
  let block_text ← handle_text_block_base block
  .ok ("- " ++ block_text)

/-- Embeds `handle_block_image` (lines 139–145): the url is read under the
type-tagged key of the image field. -/
def handle_block_image (block : Block) (_level : Nat) : Except PyErr String :=
  .ok ("![](" ++ block.payload.image_url ++ ")")

/-- Embeds `handle_block_code` (lines 147–159): fenced at level 0, re-indented
line by line at deeper levels (the `print` at line 156 is a dropped side
effect). -/
def handle_block_code (block : Block) (level : Nat) : Except PyErr String := do
  let block_text ← handle_text_block_base block
  let lang := block.payload.language
  if level > 0 then
    .ok ((block_text.splitOn "\n").foldl
      (fun code_text line => code_text ++ "    " ++ line ++ "\n" ++ strRepeat "  " level) "")
  else
    .ok ("```" ++ lang ++ "\n" ++ block_text ++ "\n```")

/-- Embeds `handle_block_heading_1` (lines 161–165). -/
def handle_block_heading_1 (block : Block) (_level : Nat) : Except PyErr String := do
  let block_text ← handle_text_block_base block
  .ok ("# " ++ block_text)

/-- Embeds `handle_block_heading_2` (lines 167–171). -/
def handle_block_heading_2 (block : Block) (_level : Nat) : Except PyErr String := do
  let block_text ← handle_text_block_base block
  .ok ("## " ++ block_text)

/-- Embeds `handle_block_heading_3` (lines 173–177). -/
def handle_block_heading_3 (block : Block) (_level : Nat) : Except PyErr String := do
  let block_text ← handle_text_block_base block
  .ok ("### " ++ block_text)

/-- Embeds `handle_block_bookmark` (lines 179–184). -/
def handle_block_bookmark (block : Block) (_level : Nat) : Except PyErr String :=
  let bookmark_url := block.payload.bookmark_url
  .ok ("- [" ++ bookmark_url ++ "](" ++ bookmark_url ++ ")")

/-- Embeds `handle_block_quote` (lines 186–190). -/
def handle_block_quote (block : Block) (_level : Nat) : Except PyErr String := do
  let block_text ← handle_text_block_base block
  .ok ("> " ++ block_text)

/-- Embeds `handle_block_to_do` (lines 192–198). -/
def handle_block_to_do (block : Block) (_level : Nat) : Except PyErr String := do
  let block_text ← handle_text_block_base block
  let checked := block.payload.checked
  let pre := "- [" ++ (if checked then "x" else " ") ++ "] "
  .ok (pre ++ block_text)

/-- Embeds `handle_block_child_database` (lines 200–243): paginate the database
query, extract each row's properties (line 219 — see
`callHandleTextBlockBaseKw`), then emit a Markdown table whose first
column is the tracked title field. -/
def handle_block_child_database (block : Block) (_level : Nat) : Except PyErr String := do
  let (title_field, table_list) ← dbQueryLoop "" block.payload.db_pages
  let all_fields := dedupKeep []
    (table_list.foldl
      (fun acc row => acc ++ (row.map Prod.fst).filter (fun k => k ≠ title_field)) [])
  let all_fields := title_field :: all_fields
  let block_text := joinSep " | " all_fields ++ "\n"
  let block_text := block_text ++ joinSep " | " (all_fields.map (fun _ => "----")) ++ "\n"
  let block_text := table_list.foldl
    (fun acc row =>
      acc ++ joinSep " | " (all_fields.map (fun field => (row.lookup field).getD "")) ++ "\n")
    block_text
  .ok block_text

/-- Embeds `handle_block_divider` (lines 245–248). -/
def handle_block_divider (_block : Block) (_level : Nat) : Except PyErr String :=
  .ok "------"

/-- Embeds `handle_block_callout` (lines 250–278); `mdR` stands for the external
`markdown.markdown` converter applied to the block's text at line 268. -/
def handle_block_callout (mdR : String → String) (block : Block) (_level : Nat) :
    Except PyErr String := do
  let block_text ← handle_text_block_base block
  let block_html := mdR block_text
  let icon_type := block.payload.icon_type
  let icon_html :=
    if icon_type = "emoji" then
      "<div style=\"display: flex; align-items: center; justify-content: center; height: 24px; width: 24px;\"><div style=\"height: 16.8px; width: 16.8px; font-size: 16.8px; line-height: 1.1; margin-left: 0px; color: black;\">"
        ++ block.payload.icon_emoji ++ "</div></div>"
    else if icon_type = "external" then
      "<div><div style=\"width: 100%; height: 100%;\"><img src=\"" ++ block.payload.icon_external_url
        ++ "\" style=\"display: block; object-fit: cover; border-radius: 3px; width: 16.8px; height: 16.8px; transition: opacity 100ms ease-out 0s;\"></div></div>"
    else ""
  .ok ("<div class=\"callout\" style=\"width: 100%; max-width: 850px;\">\n    <div style=\"display: flex;\">\n        <div style=\"display: flex; width: 100%; border-radius: 3px; padding: 16px 16px 16px 12px;\">\n            <div>\n                <div style=\"user-select: none; transition: background 20ms ease-in 0s; display: flex; align-items: center; justify-content: center; height: 24px; width: 24px; border-radius: 3px; flex-shrink: 0;\">\n                    "
    ++ icon_html
    ++ "\n                </div>\n            </div>\n            <div style=\"display: flex; flex-direction: column; min-width: 0px; margin-left: 8px; width: 100%;\">\n                <div style=\"max-width: 100%; width: 100%; white-space: pre-wrap; word-break: break-word; caret-color: rgb(55, 53, 47); padding-left: 2px; padding-right: 2px;\">"
    ++ block_html
    ++ "</div>\n            </div>\n        </div>\n    </div>\n</div>")

/-- Embeds `handle_block_unsupported` (lines 280–282): the handler mapped to
the literal API block type `"unsupported"`. -/
def handle_block_unsupported (_block : Block) (_level : Nat) : Except PyErr String :=
  .ok (proc_unsupport_block "不支持的API block")

/-- Embeds `handle_block_table` (lines 292–307). -/
def handle_block_table (block : Block) (_level : Nat) : Except PyErr String :=
  let table_width := block.payload.table_width
  .ok ("  " ++ strRepeat "|" table_width ++ "|" ++ "\n  " ++ strRepeat "|-" table_width ++ "|")

/-- Lines 319–326 of `handle_block_table_row`: the cell's first run is
formatted by inlining the same computation as `_handle_element_base`
(no per-element-type dispatch). -/
def tableRowCellText (row : InlineElement) : String :=
  let plain_text := row.plain_text
  let href := row.href
  let annotations := ElementAnnotations.ofData row.annotations
  let parsed_text := plain_text
  let parsed_text := if href ≠ "" then "[" ++ parsed_text ++ "](" ++ href ++ ")" else parsed_text
  annotations.parse_text parsed_text

/-- Lines 317–329: the `for i in range(len(rows))` loop. `rows[i][0]`
raises `IndexError` when the cell's run list is empty. -/
def tableRowLoop : List (List InlineElement) → Except PyErr String
  | [] => .ok ""
  | cell :: rest =>
      match cell with
      | [] => .error (.indexError "list index out of range")
      | row :: _ => do
          let tail ← tableRowLoop rest
          .ok (tableRowCellText row ++ "|" ++ tail)

/-- Embeds `handle_block_table_row` (lines 309–331). -/
def handle_block_table_row (block : Block) (_level : Nat) : Except PyErr String := do
  let s ← tableRowLoop block.payload.cells
  .ok ("|" ++ s)

/-- Embeds `handle_block_table_of_contents` (lines 333–336). -/
def handle_block_table_of_contents (_block : Block) (_level : Nat) : Except PyErr String :=
  .ok ""

/-- The block types for which a `handle_block_<type>` method exists on
`NotionToMarkdown`. -/
def handledBlockTypes : List String :=
  ["paragraph", "numbered_list_item", "bulleted_list_item", "image", "code",
   "heading_1", "heading_2", "heading_3", "bookmark", "quote", "to_do",
   "child_database", "divider", "callout", "unsupported", "table", "table_row",
   "table_of_contents"]

/-- The `getattr(self, f'handle_block_{block_type}')(block, level)`
dispatch of `_parse_blocks` (line 86): a type with no matching method
makes `getattr` raise `AttributeError`. -/
def handleBlock (mdR : String → String) (block : Block) (level : Nat) : Except PyErr String :=
  let t := block.type
  if t = "paragraph" then handle_block_paragraph block level
  else if t = "numbered_list_item" then handle_block_numbered_list_item block level
  else if t = "bulleted_list_item" then handle_block_bulleted_list_item block level
  else if t = "image" then handle_block_image block level
  else if t = "code" then handle_block_code block level
  else if t = "heading_1" then handle_block_heading_1 block level
  else if t = "heading_2" then handle_block_heading_2 block level
  else if t = "heading_3" then handle_block_heading_3 block level
  else if t = "bookmark" then handle_block_bookmark block level
  else if t = "quote" then handle_block_quote block level
  else if t = "to_do" then handle_block_to_do block level
  else if t = "child_database" then handle_block_child_database block level
  else if t = "divider" then handle_block_divider block level
  else if t = "callout" then handle_block_callout mdR block level
  else if t = "unsupported" then handle_block_unsupported block level
  else if t = "table" then handle_block_table block level
  else if t = "table_row" then handle_block_table_row block level
  else if t = "table_of_contents" then handle_block_table_of_contents block level
  else .error (.attributeError ("NotionToMarkdown object has no attribute handle_block_" ++ t))

/-- Line 85: `Eof = "\n" if block_type in ["table", "table_row"] else "\n\n"`. -/
def eofFor (block_type : String) : String :=
  if ["table", "table_row"].contains block_type then "\n" else "\n\n"

/-- Embeds `_parse_blocks` (lines 81–89): for each block in order, append
`'  ' * level`, the rendered fragment and the separator, then, when the
block has children, the recursive rendering of its children at
`level + 1`. -/
def parseBlocksList (mdR : String → String) : BlockList → Nat → Except PyErr String
  | .nil, _ => .ok ""
  | .cons (.mk ty hc pl ch) bs, level => do
      let frag ← handleBlock mdR (.mk ty hc pl ch) level
      let childText ← if hc then parseBlocksList mdR ch (level + 1) else .ok ""
      let rest ← parseBlocksList mdR bs level
      .ok (strRepeat "  " level ++ frag ++ eofFor ty ++ childText ++ rest)

/-! ## The block source and `get_blocks` (`notion2md.py`, lines 77–79) -/

/-- One response of `blocks.children.list`: the `results` list and the
pagination token the API reports alongside it. -/
structure ChildrenPage where
  results : BlockList := .nil
  next_cursor : Option String := none

/-- The block-source capability: given a parent block id and an optional
start cursor, one page of children. -/
abbrev BlockSource := String → Option String → ChildrenPage

/-- Embeds `get_blocks` (lines 77–79): a single
`self.notion.blocks.children.list(parent_block_id)` call — issued with
no cursor argument — whose `results` entry is returned as-is (`or []`
only turns a missing or empty entry into the empty list). -/
def get_blocks (source : BlockSource) (parent_block_id : String) : BlockList :=
  (source parent_block_id none).results

/-! ## Database items and their accessors (`main.py`, lines 53–122) -/

/-- One property of a database item (`data["properties"][name]`). The
`type` key is `none` when absent — in particular `{}` (the
`.get(name, {})` fallback) is `{ type? := none, ... }`, whose
subscripting `["type"]` raises `KeyError`. -/
structure PropData where
  type? : Option String := none
  title : List InlineElement := []
  rich_text : List InlineElement := []
deriving Repr

/-- A database item (`data`): its `properties` dictionary. -/
structure PageData where
  properties : List (String × PropData) := []
deriving Repr

/-- Python `d[k]` on a value embedded as `Option`: raises `KeyError`
when the key is absent. -/
def pySubscript (v : Option String) : Except PyErr String :=
  match v with
  | some s => .ok s
  | none => .error (.keyError "type")

/-- Embeds `Notion.get_page_id` (lines 77–85): reads the `Article` property,
checks its discriminant is `rich_text` (raising `TypeError` otherwise),
and returns the first `mention`'s page id, or `None`. A mention run's
page id is embedded as `mention_page_id`. -/
def Notion.get_page_id (data : PageData) : Except PyErr (Option String) := do
  let rich_text_node := (data.properties.lookup "Article").getD {}
  let t ← pySubscript rich_text_node.type?
  if t ≠ "rich_text" then
    .error (.typeError "this field is not a rich text")
  else
    let mentions := (rich_text_node.rich_text.filter (fun i => i.type = "mention")).map
      (fun i => i.mention_page_id)
    .ok mentions.head?

/-- Embeds `Notion.title` (lines 87–94): reads the `Name` property, checks its
discriminant is `title` (raising `TypeError` otherwise), and
concatenates the `plain_text` of its `title` runs. -/
def Notion.title (data : PageData) : Except PyErr String := do
  let title_node := (data.properties.lookup "Name").getD {}
  let t ← pySubscript title_node.type?
  if t ≠ "title" then
    .error (.typeError "this field is not a title")
  else
    .ok (title_node.title.foldl (fun acc i => acc ++ i.plain_text) "")

/-- Embeds `Notion.md_filename` (lines 102–109): reads the `MDFilename`
property, checks its discriminant is `rich_text` (raising `TypeError`
otherwise), and concatenates the `plain_text` of its `rich_text` runs. -/
def Notion.md_filename (data : PageData) : Except PyErr String := do
  let rich_text_node := (data.properties.lookup "MDFilename").getD {}
  let t ← pySubscript rich_text_node.type?
  if t ≠ "rich_text" then
    .error (.typeError "this field is not a rich text")
  else
    .ok (rich_text_node.rich_text.foldl (fun acc i => acc ++ i.plain_text) "")

/-! ## MD5 (`hashlib.md5`, used by `ImgStore.get_md5`, `main.py` lines 158–160)

A direct implementation of RFC 1321 over byte lists, with 32-bit words
as `Nat` reduced modulo `2 ^ 32`. Everything is structurally recursive
so that concrete hashes evaluate inside the kernel. -/

/-- Reduce to a 32-bit word. -/
def w32 (n : Nat) : Nat := n % 4294967296

/-- Bitwise complement of a 32-bit word. -/
def not32 (x : Nat) : Nat := 4294967295 - w32 x

/-- Left rotation of a 32-bit word by `s` bits (`0 < s < 32`). -/
def rotl32 (x s : Nat) : Nat := w32 (w32 x * 2 ^ s) + w32 x / 2 ^ (32 - s)

/-- The MD5 sine-derived constant table `K`. -/
def md5K : List Nat :=
  [0xd76aa478, 0xe8c7b756, 0x242070db, 0xc1bdceee,
   0xf57c0faf, 0x4787c62a, 0xa8304613, 0xfd469501,
   0x698098d8, 0x8b44f7af, 0xffff5bb1, 0x895cd7be,
   0x6b901122, 0xfd987193, 0xa679438e, 0x49b40821,
   0xf61e2562, 0xc040b340, 0x265e5a51, 0xe9b6c7aa,
   0xd62f105d, 0x02441453, 0xd8a1e681, 0xe7d3fbc8,
   0x21e1cde6, 0xc33707d6, 0xf4d50d87, 0x455a14ed,
   0xa9e3e905, 0xfcefa3f8, 0x676f02d9, 0x8d2a4c8a,
   0xfffa3942, 0x8771f681, 0x6d9d6122, 0xfde5380c,
   0xa4beea44, 0x4bdecfa9, 0xf6bb4b60, 0xbebfbc70,
   0x289b7ec6, 0xeaa127fa, 0xd4ef3085, 0x04881d05,
   0xd9d4d039, 0xe6db99e5, 0x1fa27cf8, 0xc4ac5665,
   0xf4292244, 0x432aff97, 0xab9423a7, 0xfc93a039,
   0x655b59c3, 0x8f0ccc92, 0xffeff47d, 0x85845dd1,
   0x6fa87e4f, 0xfe2ce6e0, 0xa3014314, 0x4e0811a1,
   0xf7537e82, 0xbd3af235, 0x2ad7d2bb, 0xeb86d391]

/-- The MD5 per-round left-rotation amounts `s`. -/
def md5S : List Nat :=
  [7, 12, 17, 22, 7, 12, 17, 22, 7, 12, 17, 22, 7, 12, 17, 22,
   5, 9, 14, 20, 5, 9, 14, 20, 5, 9, 14, 20, 5, 9, 14, 20,
   4, 11, 16, 23, 4, 11, 16, 23, 4, 11, 16, 23, 4, 11, 16, 23,
   6, 10, 15, 21, 6, 10, 15, 21, 6, 10, 15, 21, 6, 10, 15, 21]

/-- The round mixing function and message-word index for round `i`. -/
def md5FG (b c d i : Nat) : Nat × Nat :=
  if i < 16 then ((b &&& c) ||| (not32 b &&& d), i % 16)
  else if i < 32 then ((b &&& d) ||| (c &&& not32 d), (5 * i + 1) % 16)
  else if i < 48 then (b ^^^ c ^^^ d, (3 * i + 5) % 16)
  else (c ^^^ (b ||| not32 d), (7 * i) % 16)

/-- One of the 64 MD5 rounds on the state `(a, b, c, d)`. -/
def md5Round (M : List Nat) (st : Nat × Nat × Nat × Nat) (i : Nat) : Nat × Nat × Nat × Nat :=
  let (a, b, c, d) := st
  let (f, g) := md5FG b c d i
  let fv := w32 (f + a + md5K.getD i 0 + M.getD g 0)
  (d, w32 (b + rotl32 fv (md5S.getD i 0)), b, c)

/-- Process one 64-byte chunk: decode 16 little-endian words, run the 64
rounds, add the result into the running state. -/
def md5Chunk (h : Nat × Nat × Nat × Nat) (chunk : List Nat) : Nat × Nat × Nat × Nat :=
  let M := (List.range 16).map (fun j =>
    chunk.getD (4 * j) 0 + 256 * chunk.getD (4 * j + 1) 0 +
    65536 * chunk.getD (4 * j + 2) 0 + 16777216 * chunk.getD (4 * j + 3) 0)
  let (a0, b0, c0, d0) := h
  let (a, b, c, d) := (List.range 64).foldl (md5Round M) (a0, b0, c0, d0)
  (w32 (a0 + a), w32 (b0 + b), w32 (c0 + c), w32 (d0 + d))

/-- MD5 padding: `0x80`, zeros to 56 mod 64, then the bit length as a
64-bit little-endian quantity. -/
def md5Pad (msg : List Nat) : List Nat :=
  let L := msg.length
  let z := (56 + 64 - (L + 1) % 64) % 64
  let lenBits := 8 * L % 2 ^ 64
  msg ++ [0x80] ++ List.replicate z 0 ++ (List.range 8).map (fun j => lenBits / 2 ^ (8 * j) % 256)

/-- Split into 64-byte chunks (fuel-structured so the kernel evaluates
it; the fuel `msg.length` always suffices). -/
def chunks64Go : Nat → List Nat → List (List Nat)
  | 0, _ => []
  | _ + 1, [] => []
  | fuel + 1, l => l.take 64 :: chunks64Go fuel (l.drop 64)

/-- Split a byte list into 64-byte chunks. -/
def chunks64 (l : List Nat) : List (List Nat) := chunks64Go l.length l

/-- The MD5 state after digesting a whole message. -/
def md5Words (msg : List Nat) : Nat × Nat × Nat × Nat :=
  (chunks64 (md5Pad msg)).foldl md5Chunk (0x67452301, 0xefcdab89, 0x98badcfe, 0x10325476)

/-- Lowercase hex digit. -/
def hexChar (n : Nat) : Char := "0123456789abcdef".data.getD n '0'

/-- Two-digit lowercase hex of a byte. -/
def byteHex (b : Nat) : String := String.mk [hexChar (b / 16 % 16), hexChar (b % 16)]

/-- Little-endian hex of a 32-bit word. -/
def word32HexLE (w : Nat) : String :=
  byteHex (w % 256) ++ byteHex (w / 256 % 256) ++ byteHex (w / 65536 % 256) ++
    byteHex (w / 16777216 % 256)

/-- Embeds `hashlib.md5(data).hexdigest()`. -/
def md5hex (msg : List Nat) : String :=
  let (a, b, c, d) := md5Words msg
  word32HexLE a ++ word32HexLE b ++ word32HexLE c ++ word32HexLE d

/-! ## Python `str.replace` -/

/-- Python `str.replace(old, new)` on character lists: every
non-overlapping occurrence, scanned left to right, is replaced. The
fuel (initially the subject's length) strictly bounds the recursion and
always suffices. -/
def pyReplaceGo (old new : List Char) : Nat → List Char → List Char
  | _, [] => []
  | 0, s => s
  | fuel + 1, c :: rest =>
      if old.isPrefixOf (c :: rest) then
        new ++ pyReplaceGo old new fuel (rest.drop (old.length - 1))
      else
        c :: pyReplaceGo old new fuel rest

/-- Python `s.replace(old, new)` (all occurrences). Python's behaviour
for an empty `old` (interleaving) is not modelled — the uses below only
ever replace nonempty strings — so `old = ""` is embedded as the
identity. -/
def pyReplace (s old new : String) : String :=
  match old.data with
  | [] => s
  | _ :: _ => String.mk (pyReplaceGo old.data new.data s.data.length s.data)

/-! ## Image stores (`main.py`, lines 152–216) -/

/-- Embeds `ImgStore.get_md5` (lines 158–160): the MD5 hex digest of the raw
image bytes. -/
def ImgStore.get_md5 (img_data : List Nat) : String := md5hex img_data

/-- Embeds `os.path.join(path, s)` for the two-argument, forward-slash case
that `get_store_path` and `get_img_path` exercise: an absolute second
component replaces the first, otherwise the components are joined with
one `/`. -/
def pyOsPathJoin (path s : String) : String :=
  if ['/'].isPrefixOf s.data then s
  else if path = "" then s
  else if ['/'].isSuffixOf path.data then path ++ s
  else path ++ "/" ++ s

/-- Embeds `ImgStoreRemoteGithub.get_store_path` (lines 167–169): the key is
`hash[0:2]/hash[2:4]/hash + ext` under the given prefix (the
backslash-to-slash replace is kept even though no backslash can occur
here). -/
def ImgStoreRemoteGithub.get_store_path (img_data : List Nat) (img_ext path : String) : String :=
  let md5str := ImgStore.get_md5 img_data
  pyReplace
    (pyOsPathJoin path
      (md5str.take 2 ++ "/" ++ ((md5str.drop 2).take 2) ++ "/" ++ md5str ++ img_ext))
    "\\" "/"

/-- Embeds `ImgStoreLocal.get_img_filename` (lines 201–203): the flat key
`hash + ext`. -/
def ImgStoreLocal.get_img_filename (img_data : List Nat) (img_ext : String) : String :=
  ImgStore.get_md5 img_data ++ img_ext

/-- Embeds `ImgStoreLocal.get_img_path` (lines 205–206). -/
def ImgStoreLocal.get_img_path (img_data : List Nat) (img_ext path : String) : String :=
  pyOsPathJoin path (ImgStoreLocal.get_img_filename img_data img_ext)

/-! ## URL extension extraction (`main.py`, lines 239–241) -/

/-- Drop everything up to and including the first occurrence of `pat`;
`none` when `pat` does not occur. The fuel (initially the subject's
length) always suffices. -/
def dropThroughSub (pat : List Char) : Nat → List Char → Option (List Char)
  | _, [] => none
  | 0, _ => none
  | fuel + 1, c :: rest =>
      if pat.isPrefixOf (c :: rest) then some ((c :: rest).drop pat.length)
      else dropThroughSub pat fuel rest

/-- The `path` component of `urllib.parse.urlparse`: strip the fragment
and the query, then — when a `scheme://netloc` head is present — the
part of the remainder from the first `/` on (empty when the netloc has
no path). A url with no `://` is all path. -/
def urlparsePath (url : String) : String :=
  let s := url.data.takeWhile (fun c => c ≠ '#')
  let s := s.takeWhile (fun c => c ≠ '?')
  match dropThroughSub "://".data s.length s with
  | none => String.mk s
  | some r => String.mk (r.dropWhile (fun c => c ≠ '/'))

/-- The extension part of `os.path.splitext`: everything from the last
`.` of the final path component, except that a component whose
characters before that dot are all dots has no extension. -/
def os_path_splitext_ext (p : String) : String :=
  let base := (p.data.reverse.takeWhile (fun c => c ≠ '/')).reverse
  let rev := base.reverse
  let afterDotRev := rev.takeWhile (fun c => c ≠ '.')
  if afterDotRev.length = rev.length then ""
  else
    let pre := base.take (base.length - afterDotRev.length - 1)
    if pre.all (fun c => c = '.') then ""
    else String.mk ('.' :: afterDotRev.reverse)

/-- Embeds `ImgHandler.get_ext_from_imglink` (lines 239–241):
`os.path.splitext(urlparse(imglink).path)[1]` — note the extension's
letter case is preserved as-is. -/
def ImgHandler.get_ext_from_imglink (imglink : String) : String :=
  os_path_splitext_ext (urlparsePath imglink)

/-! ## The image relocation pass (`main.py`, lines 219–262) -/

/-- Embeds `ImgHandler.is_exclude` (lines 246–249): `re.search` of the anchored
pattern `^https://kroki.io/` — thirteen literal characters, one
arbitrary non-newline character (the regex `.`), then `io/`. -/
def ImgHandler.is_exclude (imglink : String) : Bool :=
  (imglink.data.take 13 == "https://kroki".data) &&
  (imglink.data.getD 13 '\n' != '\n') &&
  ((imglink.data.drop 14).take 3 == "io/".data)

/-- The outcome of the relocation pass over a document: the rewritten
text together with the list of image urls that were fetched and handed
to the store, in order. -/
structure RelocResult where
  text : String
  stored : List String
deriving Repr

/-- One iteration of the `for item in self.pattern.findall(...)` loop of
`extract_n_replace_imglink` (lines 252–261): an excluded url is skipped
outright; otherwise the url is fetched and stored (the composite
`store` capability maps the old url to the new one, standing for
`get_img_data_from_url` + `ImgStore(...).store()`), the url inside the
matched text is replaced, and the matched text is replaced in the
document. -/
def relocStep (store : String → String) (st : RelocResult) (item : String × String) :
    RelocResult :=
  let match_text := item.1
  let imglink := item.2
  if ImgHandler.is_exclude imglink then st
  else
    let new_imglink := store imglink
    let img_text := pyReplace match_text imglink new_imglink
    { text := pyReplace st.text match_text img_text, stored := st.stored ++ [imglink] }

/-- Embeds `ImgHandler.extract_n_replace_imglink` (lines 251–262): fold the
per-match step over the list of `(matched text, url)` pairs the image
pattern produced on the original document, starting from that document. -/
def extract_n_replace_imglink (store : String → String) (foundMatches : List (String × String))
    (markdown_text : String) : RelocResult :=
  foundMatches.foldl (relocStep store) { text := markdown_text, stored := [] }

/-! ## Concrete fixtures and statement-side helpers -/

/-- A paragraph block holding one plain text run (fixture). -/
def paraBlock (txt : String) (hc : Bool) (ch : BlockList) : Block :=
  .mk "paragraph" hc { rich_text := [{ type := "text", plain_text := txt }] } ch

/-- The text a table row yields when each cell is reduced to its first
inline run (statement-side companion of `tableRowLoop`). -/
def tableRowHeads : List (List InlineElement) → String
  | [] => ""
  | cell :: rest => tableRowCellText (cell.headD {}) ++ "|" ++ tableRowHeads rest

/-- A block source whose parent `"p"` has two pages of children: the
first page holds the paragraph `first` and reports the cursor `"c"`,
under which the second page holds the paragraph `second` (fixture). -/
def twoPageSource : BlockSource := fun pid cursor =>
  if pid = "p" ∧ cursor = none then
    { results := .cons (paraBlock "first" false .nil) .nil, next_cursor := some "c" }
  else if pid = "p" ∧ cursor = some "c" then
    { results := .cons (paraBlock "second" false .nil) .nil }
  else {}

/-- A block source agreeing with `twoPageSource` on the first page of
`"p"` but with an empty second page (fixture). -/
def twoPageSourceAlt : BlockSource := fun pid cursor =>
  if pid = "p" ∧ cursor = none then
    { results := .cons (paraBlock "first" false .nil) .nil, next_cursor := some "c" }
  else {}

/-- Whether `pat` occurs as a contiguous substring of `s`
(statement-side helper; `dropThroughSub` scans every position). -/
def containsSub (s pat : String) : Bool :=
  (dropThroughSub pat.data s.data.length s.data).isSome

/-! ## Theorems -/

/-- C1: for every inline run the code's formatter agrees with the
specification's description (href wrap first, then the annotation wraps
in the exact fixed order bold, italic, strikethrough, underline, code,
color, each skipped when its flag is false or absent, the color wrap
only when the color is not "default"); and on the run
`{bold:true, code:true}` with text `"x"` the output is `` `**x**` ``
with the code fence outermost. -/
theorem inline_format_order :
    (∀ element : InlineElement, handle_element_base element = specInlineFormat element) ∧
    handle_element_base
      { plain_text := "x", annotations := { bold? := some true, code? := some true } } =
      "`**x**`" := by
  constructor
  · intro element
    simp [handle_element_base, specInlineFormat, specAnnotWrapList,
      ElementAnnotations.parse_text, List.foldl]
  · rfl

/-- C2: the tree walker renders each listed block in order — `level`
two-space indents, then the block's fragment, then the separator (`"\n"`
exactly for `table`/`table_row`, `"\n\n"` otherwise), then, when the
block has children, the recursive rendering of the children at
`level + 1` — so the output is a depth-first pre-order concatenation;
on a root with children `A` (which has child `A1`) and `B` the texts
appear in the order root, A, A1, B. -/
theorem tree_walk_preorder :
    (∀ (mdR : String → String) (b : Block) (bs : BlockList) (level : Nat),
      parseBlocksList mdR (.cons b bs) level = (do
        let frag ← handleBlock mdR b level
        let childText ←
          if b.has_children then parseBlocksList mdR b.children (level + 1) else .ok ""
        let rest ← parseBlocksList mdR bs level
        .ok (strRepeat "  " level ++ frag ++ eofFor b.type ++ childText ++ rest))) ∧
    parseBlocksList (fun s => s)
      (.cons (paraBlock "root" true
        (.cons (paraBlock "A" true (.cons (paraBlock "A1" false .nil) .nil))
          (.cons (paraBlock "B" false .nil) .nil))) .nil) 0 =
      .ok "root\n\n  A\n\n    A1\n\n  B\n\n" := by
  constructor
  · intro mdR b bs level
    obtain ⟨ty, hc, pl, ch⟩ := b
    rfl
  · rfl

/-- C3 (failing input): a `child_database` block whose first query page
holds one row with one property (`Name`, of type `title`). Rendering
does not produce a table row: the call at line 219 passes the keyword
argument `has_text_field`, which `_handle_text_block_base` (line 111)
does not declare, so the handler raises `TypeError` at the very first
property of the very first row. -/
theorem child_database_keyword_type_error :
    handleBlock (fun s => s)
      (.mk "child_database" false
        { db_pages := [{ results := [{ properties := [("Name", { type? := some "title" })] }],
                         next_cursor := none }] } .nil) 0 =
      .error (.typeError
        "_handle_text_block_base() got an unexpected keyword argument has_text_field") := by
  rfl

/-- C4 (counterexample): a block source that reports a next cursor for
parent `"p"`. `get_blocks` returns only the first page's block, and the
walker renders `"first\n\n"` — not the concatenation of both pages'
blocks, which would render `"first\n\nsecond\n\n"`. -/
theorem get_blocks_single_page_counterexample :
    (twoPageSource "p" none).next_cursor = some "c" ∧
    get_blocks twoPageSource "p" = .cons (paraBlock "first" false .nil) .nil ∧
    parseBlocksList (fun s => s) (get_blocks twoPageSource "p") 0 = .ok "first\n\n" ∧
    parseBlocksList (fun s => s)
      (.cons (paraBlock "first" false .nil) (.cons (paraBlock "second" false .nil) .nil)) 0 =
      .ok "first\n\nsecond\n\n" ∧
    ("first\n\n" : String) ≠ "first\n\nsecond\n\n" := by
  refine ⟨rfl, rfl, rfl, rfl, ?_⟩
  decide

/-- C4 (amended): `get_blocks` issues exactly one `children.list` call,
with no cursor: its value is the first page's `results` and depends on
nothing but that first page — any reported next cursor, and every
subsequent page, is ignored. -/
theorem get_blocks_first_page_only :
    (∀ (source : BlockSource) (pid : String),
      get_blocks source pid = (source pid none).results) ∧
    (∀ (s1 s2 : BlockSource) (pid : String),
      s1 pid none = s2 pid none → get_blocks s1 pid = get_blocks s2 pid) := by
  refine ⟨fun _ _ => rfl, fun s1 s2 pid h => ?_⟩
  simp [get_blocks, h]

/-- Witness for `get_blocks_first_page_only`: two sources agreeing on
the first page of `"p"` (but differing under the cursor `"c"`) make
`get_blocks` agree. -/
theorem get_blocks_first_page_only_witness :
    get_blocks twoPageSource "p" = get_blocks twoPageSourceAlt "p" :=
  get_blocks_first_page_only.2 twoPageSource twoPageSourceAlt "p" rfl

/-- C5 (counterexample): a block of type `toggle` — a real API type with
no `handle_block_toggle` method — does not render to a placeholder: the
`getattr` dispatch raises `AttributeError` and the walk stops with that
error. -/
theorem unknown_type_counterexample :
    parseBlocksList (fun s => s) (.cons (.mk "toggle" false {} .nil) .nil) 0 =
      .error (.attributeError "NotionToMarkdown object has no attribute handle_block_toggle") := by
  rfl

/-- C5 (amended): only the literal API type `"unsupported"` (which has a
mapped handler) renders as the inert placeholder and never raises; a
block whose type is outside the handled set makes the dispatch raise
`AttributeError`, stopping the conversion. -/
theorem dispatch_unsupported_vs_unknown :
    (∀ (mdR : String → String) (hc : Bool) (pl : BlockPayload) (ch : BlockList) (level : Nat),
      handleBlock mdR (.mk "unsupported" hc pl ch) level =
        .ok (proc_unsupport_block "不支持的API block")) ∧
    (∀ (mdR : String → String) (b : Block) (level : Nat),
      b.type ∉ handledBlockTypes →
      handleBlock mdR b level =
        .error (.attributeError
          ("NotionToMarkdown object has no attribute handle_block_" ++ b.type))) := by
  constructor
  · intro mdR hc pl ch level
    rfl
  · intro mdR b level h
    obtain ⟨ty, hc, pl, ch⟩ := b
    simp only [handledBlockTypes, List.mem_cons, List.not_mem_nil, or_false, not_or,
      Block.type] at h
    obtain ⟨h1, h2, h3, h4, h5, h6, h7, h8, h9, h10, h11, h12, h13, h14, h15, h16, h17, h18⟩ := h
    simp only [handleBlock, Block.type]
    rw [if_neg h1, if_neg h2, if_neg h3, if_neg h4, if_neg h5, if_neg h6, if_neg h7, if_neg h8,
      if_neg h9, if_neg h10, if_neg h11, if_neg h12, if_neg h13, if_neg h14, if_neg h15,
      if_neg h16, if_neg h17, if_neg h18]

/-- Witness for `dispatch_unsupported_vs_unknown`: the unhandled type
`synced_block` dispatches to an `AttributeError`. -/
theorem dispatch_unsupported_vs_unknown_witness :
    handleBlock (fun s => s) (.mk "synced_block" false {} .nil) 0 =
      .error (.attributeError
        "NotionToMarkdown object has no attribute handle_block_synced_block") :=
  dispatch_unsupported_vs_unknown.2 (fun s => s) (.mk "synced_block" false {} .nil) 0 (by decide)

/-- C6 (counterexample): two byte-identical images (`[97]`, the byte of
`"a"`) whose URLs differ only in the letter case of the extension do
*not* get the same storage key: `get_ext_from_imglink` preserves the
extension's case, and the extension is part of both backends' keys. -/
theorem storage_key_ext_case_counterexample :
    ImgHandler.get_ext_from_imglink "https://host/img/a.png" = ".png" ∧
    ImgHandler.get_ext_from_imglink "https://host/img/b.PNG" = ".PNG" ∧
    ImgStoreLocal.get_img_filename [97]
        (ImgHandler.get_ext_from_imglink "https://host/img/a.png") ≠
      ImgStoreLocal.get_img_filename [97]
        (ImgHandler.get_ext_from_imglink "https://host/img/b.PNG") ∧
    ImgStoreRemoteGithub.get_store_path [97]
        (ImgHandler.get_ext_from_imglink "https://host/img/a.png") "img" ≠
      ImgStoreRemoteGithub.get_store_path [97]
        (ImgHandler.get_ext_from_imglink "https://host/img/b.PNG") "img" := by
  refine ⟨rfl, rfl, ?_, ?_⟩ <;> decide

/-- C6 (amended): the storage key is a function of the raw bytes'
MD5 hash and the extension string alone — two byte-identical images
whose URLs yield the same extension string (comparison is
case-sensitive) get identical keys, whatever the rest of their URLs —
and the key has the shape `hash[0:2]/hash[2:4]/hash + ext` under the
prefix for the github backend and the flat `hash + ext` for the local
backend. -/
theorem storage_key_content_addressed :
    (∀ (img_data : List Nat) (u1 u2 path : String),
      ImgHandler.get_ext_from_imglink u1 = ImgHandler.get_ext_from_imglink u2 →
      ImgStoreRemoteGithub.get_store_path img_data (ImgHandler.get_ext_from_imglink u1) path =
        ImgStoreRemoteGithub.get_store_path img_data (ImgHandler.get_ext_from_imglink u2) path ∧
      ImgStoreLocal.get_img_filename img_data (ImgHandler.get_ext_from_imglink u1) =
        ImgStoreLocal.get_img_filename img_data (ImgHandler.get_ext_from_imglink u2)) ∧
    (∀ (img_data : List Nat) (ext : String),
      ImgStoreLocal.get_img_filename img_data ext = md5hex img_data ++ ext) ∧
    (∀ (img_data : List Nat) (ext path : String),
      ImgStoreRemoteGithub.get_store_path img_data ext path =
        pyReplace
          (pyOsPathJoin path
            ((md5hex img_data).take 2 ++ "/" ++ ((md5hex img_data).drop 2).take 2 ++ "/" ++
              md5hex img_data ++ ext))
          "\\" "/") := by
  refine ⟨fun img_data u1 u2 path h => ⟨by rw [h], by rw [h]⟩, fun _ _ => rfl, fun _ _ _ => rfl⟩

/-- Witness for `storage_key_content_addressed`: two URLs with the same
`.png` extension but different hosts and basenames give the identical
bytes `[97]` identical github and local keys. -/
theorem storage_key_content_addressed_witness :
    ImgStoreRemoteGithub.get_store_path [97]
        (ImgHandler.get_ext_from_imglink "https://host-one/img/a.png") "img" =
      ImgStoreRemoteGithub.get_store_path [97]
        (ImgHandler.get_ext_from_imglink "https://other.example/deep/dir/b.png") "img" ∧
    ImgStoreLocal.get_img_filename [97]
        (ImgHandler.get_ext_from_imglink "https://host-one/img/a.png") =
      ImgStoreLocal.get_img_filename [97]
        (ImgHandler.get_ext_from_imglink "https://other.example/deep/dir/b.png") :=
  storage_key_content_addressed.1 [97] "https://host-one/img/a.png"
    "https://other.example/deep/dir/b.png" "img" (by decide)

/-- Helper: the relocation step is the identity on an excluded match —
line 255's `continue` fires before any fetch, store or text change. -/
theorem relocStep_excluded_eq (store : String → String) (st : RelocResult) (m u : String)
    (h : ImgHandler.is_exclude u = true) : relocStep store st (m, u) = st := by
  simp [relocStep, h]

/-- Helper: folding the relocation step never records an excluded url as
fetched-and-stored. -/
theorem reloc_stored_not_excluded (store : String → String) :
    ∀ (fm : List (String × String)) (st : RelocResult),
      (∀ l ∈ st.stored, ImgHandler.is_exclude l = false) →
      ∀ l ∈ (List.foldl (relocStep store) st fm).stored, ImgHandler.is_exclude l = false := by
  intro fm
  induction fm with
  | nil => intro st h l hl; exact h l hl
  | cons item rest ih =>
      intro st h l hl
      obtain ⟨m, u⟩ := item
      simp only [List.foldl_cons] at hl
      by_cases hex : ImgHandler.is_exclude u = true
      · rw [relocStep_excluded_eq store st m u hex] at hl
        exact ih st h l hl
      · have hu : ImgHandler.is_exclude u = false := by
          cases hx : ImgHandler.is_exclude u
          · rfl
          · exact absurd hx hex
        refine ih (relocStep store st (m, u)) ?_ l hl
        intro l' hl'
        simp only [relocStep, hu, Bool.false_eq_true, if_false] at hl'
        rcases List.mem_append.mp hl' with hmem | hone
        · exact h l' hmem
        · rw [List.mem_singleton.mp hone]
          exact hu

/-- C7 (counterexample): an excluded image occurrence is *not* always
left with an identical URL string in the output. On the document

`![a](http://h/i.png)` ⏎ `![b](https://kroki.io/![a](http://h/i.png))`

the image pattern (lazy url, stopping at the first `)`) yields two
matches: the non-excluded `![a](http://h/i.png)` with url
`http://h/i.png`, and the excluded
`![b](https://kroki.io/![a](http://h/i.png)` with url
`https://kroki.io/![a](http://h/i.png` (which matches the exclusion
pattern). The first match's iteration does a global `str.replace` of
its matched text over the whole document — rewriting the copy that sits
inside the excluded image's URL — so the excluded URL string occurs in
the input but no longer occurs in the output: it reads
`https://kroki.io/![a](NEW` afterwards. -/
theorem excluded_url_rewritten_counterexample :
    ImgHandler.is_exclude "https://kroki.io/![a](http://h/i.png" = true ∧
    containsSub "![a](http://h/i.png)\n![b](https://kroki.io/![a](http://h/i.png))"
      "https://kroki.io/![a](http://h/i.png" = true ∧
    (extract_n_replace_imglink (fun _ => "NEW")
        [("![a](http://h/i.png)", "http://h/i.png"),
         ("![b](https://kroki.io/![a](http://h/i.png)", "https://kroki.io/![a](http://h/i.png")]
        "![a](http://h/i.png)\n![b](https://kroki.io/![a](http://h/i.png))").text =
      "![a](NEW)\n![b](https://kroki.io/![a](NEW))" ∧
    containsSub "![a](NEW)\n![b](https://kroki.io/![a](NEW))"
      "https://kroki.io/![a](http://h/i.png" = false := by
  exact ⟨rfl, by decide, rfl, by decide⟩

/-- C7 (amended): an image match whose url matches the exclusion pattern
contributes nothing of its own to the relocation pass — running the
pass with the excluded match present gives exactly the same rewritten
text and the same store calls as running it without that match (so the
excluded occurrence's URL string stays identical whenever no other,
non-excluded match's replacement overlaps it) — and no excluded url is
ever fetched and stored. -/
theorem excluded_images_untouched :
    (∀ (store : String → String) (markdown_text : String)
        (pre post : List (String × String)) (m u : String),
      ImgHandler.is_exclude u = true →
      extract_n_replace_imglink store (pre ++ (m, u) :: post) markdown_text =
        extract_n_replace_imglink store (pre ++ post) markdown_text) ∧
    (∀ (store : String → String) (markdown_text : String)
        (fm : List (String × String)) (l : String),
      l ∈ (extract_n_replace_imglink store fm markdown_text).stored →
      ImgHandler.is_exclude l = false) := by
  constructor
  · intro store text pre post m u h
    simp only [extract_n_replace_imglink, List.foldl_append, List.foldl_cons]
    rw [relocStep_excluded_eq store _ m u h]
  · intro store text fm l hl
    refine reloc_stored_not_excluded store fm _ ?_ l hl
    intro l' hl'
    exact absurd hl' (List.not_mem_nil l')

/-- Witness for `excluded_images_untouched`: a kroki-hosted diagram
match leaves the document's text unchanged, and the one stored url of a
mixed run is not an excluded one. -/
theorem excluded_images_untouched_witness :
    extract_n_replace_imglink (fun _ => "NEW")
        ([] ++ ("![d](https://kroki.io/svg/d)", "https://kroki.io/svg/d") :: [])
        "![d](https://kroki.io/svg/d)" =
      extract_n_replace_imglink (fun _ => "NEW") ([] ++ []) "![d](https://kroki.io/svg/d)" ∧
    ImgHandler.is_exclude "http://h/i.png" = false :=
  ⟨excluded_images_untouched.1 (fun _ => "NEW") "![d](https://kroki.io/svg/d)" [] []
      "![d](https://kroki.io/svg/d)" "https://kroki.io/svg/d" (by decide),
    excluded_images_untouched.2 (fun _ => "NEW") "![a](http://h/i.png)"
      [("![a](http://h/i.png)", "http://h/i.png")] "http://h/i.png" (by decide)⟩

/-- C8 (counterexample): `str.replace` replaces *every* occurrence, not
only the first, and not only inside the url slot. First pair: the match
`![http://h/i.png](http://h/i.png)` (alt text equal to the url) has its
alt text rewritten too, so the output is `![NEW](NEW)` and not the
claimed `![http://h/i.png](NEW)`. Second pair: a document holding the
literal matched text twice has both occurrences rewritten in the single
step for that match. -/
theorem replace_alters_alt_and_other_occurrences :
    (extract_n_replace_imglink (fun _ => "NEW")
        [("![http://h/i.png](http://h/i.png)", "http://h/i.png")]
        "![http://h/i.png](http://h/i.png)").text = "![NEW](NEW)" ∧
    ("![NEW](NEW)" : String) ≠ "![http://h/i.png](NEW)" ∧
    (extract_n_replace_imglink (fun _ => "NEW")
        [("![a](http://h/i.png)", "http://h/i.png")]
        "![a](http://h/i.png) and ![a](http://h/i.png)").text =
      "![a](NEW) and ![a](NEW)" ∧
    ("![a](NEW) and ![a](NEW)" : String) ≠ "![a](NEW) and ![a](http://h/i.png)" := by
  exact ⟨rfl, by decide, rfl, by decide⟩

/-- C8 (amended): for a non-excluded match the step rewrites every
occurrence of the url string inside the matched image syntax (an alt
text equal to the url is rewritten too) and then substitutes every
literal occurrence of the old matched text in the document, recording
the url as fetched and stored. -/
theorem relocation_replace_semantics :
    ∀ (store : String → String) (st : RelocResult) (m u : String),
      ImgHandler.is_exclude u = false →
      relocStep store st (m, u) =
        { text := pyReplace st.text m (pyReplace m u (store u)),
          stored := st.stored ++ [u] } := by
  intro store st m u h
  simp [relocStep, h]

/-- Witness for `relocation_replace_semantics` at a concrete
two-occurrence document. -/
theorem relocation_replace_semantics_witness :
    relocStep (fun _ => "NEW") { text := "![a](u) ![a](u)", stored := [] } ("![a](u)", "u") =
      { text := pyReplace "![a](u) ![a](u)" "![a](u)" (pyReplace "![a](u)" "u" "NEW"),
        stored := [] ++ ["u"] } :=
  relocation_replace_semantics (fun _ => "NEW") { text := "![a](u) ![a](u)", stored := [] }
    "![a](u)" "u" (by decide)

/-- C9: each identity accessor checks its property's `type` discriminant
and raises `TypeError` — rather than returning any default value — when
it is wrong: `title` demands `title` on the `Name` property,
`get_page_id` demands `rich_text` on `Article`, and `md_filename`
demands `rich_text` on `MDFilename`. -/
theorem identity_accessors_raise_typed_error :
    (∀ (data : PageData) (nd : PropData) (t : String),
      data.properties.lookup "Name" = some nd → nd.type? = some t → t ≠ "title" →
      Notion.title data = .error (.typeError "this field is not a title")) ∧
    (∀ (data : PageData) (nd : PropData) (t : String),
      data.properties.lookup "Article" = some nd → nd.type? = some t → t ≠ "rich_text" →
      Notion.get_page_id data = .error (.typeError "this field is not a rich text")) ∧
    (∀ (data : PageData) (nd : PropData) (t : String),
      data.properties.lookup "MDFilename" = some nd → nd.type? = some t → t ≠ "rich_text" →
      Notion.md_filename data = .error (.typeError "this field is not a rich text")) := by
  refine ⟨?_, ?_, ?_⟩
  · intro data nd t h1 h2 h3
    simp [Notion.title, h1, h2, h3, pySubscript, Bind.bind, Except.bind]
  · intro data nd t h1 h2 h3
    simp [Notion.get_page_id, h1, h2, h3, pySubscript, Bind.bind, Except.bind]
  · intro data nd t h1 h2 h3
    simp [Notion.md_filename, h1, h2, h3, pySubscript, Bind.bind, Except.bind]

/-- Witness for `identity_accessors_raise_typed_error`: a database item
whose `Name` is mistyped `rich_text`, `Article` mistyped `title`, and
`MDFilename` mistyped `checkbox` makes all three accessors raise. -/
theorem identity_accessors_raise_typed_error_witness :
    Notion.title
        { properties := [("Name", { type? := some "rich_text" }),
                         ("Article", { type? := some "title" }),
                         ("MDFilename", { type? := some "checkbox" })] } =
      .error (.typeError "this field is not a title") ∧
    Notion.get_page_id
        { properties := [("Name", { type? := some "rich_text" }),
                         ("Article", { type? := some "title" }),
                         ("MDFilename", { type? := some "checkbox" })] } =
      .error (.typeError "this field is not a rich text") ∧
    Notion.md_filename
        { properties := [("Name", { type? := some "rich_text" }),
                         ("Article", { type? := some "title" }),
                         ("MDFilename", { type? := some "checkbox" })] } =
      .error (.typeError "this field is not a rich text") :=
  ⟨identity_accessors_raise_typed_error.1 _ _ "rich_text" rfl rfl (by decide),
    identity_accessors_raise_typed_error.2.1 _ _ "title" rfl rfl (by decide),
    identity_accessors_raise_typed_error.2.2 _ _ "checkbox" rfl rfl (by decide)⟩

/-- Helper: when every cell is nonempty, the table-row loop succeeds and
its output uses only each cell's first inline run. -/
theorem tableRowLoop_heads :
    ∀ (cells : List (List InlineElement)), (∀ cell ∈ cells, cell ≠ []) →
      tableRowLoop cells = .ok (tableRowHeads cells) := by
  intro cells
  induction cells with
  | nil => intro _; rfl
  | cons cell rest ih =>
      intro h
      have hc : cell ≠ [] := h cell (List.mem_cons_self _ _)
      match cell, hc with
      | r :: rs, _ =>
        have hrest : ∀ c ∈ rest, c ≠ [] := fun c hcm => h c (List.mem_cons_of_mem _ hcm)
        simp only [tableRowLoop, ih hrest, tableRowHeads]
        rfl

/-- Helper: an empty cell anywhere makes the table-row loop raise
`IndexError`. -/
theorem tableRowLoop_err :
    ∀ (cells : List (List InlineElement)), [] ∈ cells →
      tableRowLoop cells = .error (.indexError "list index out of range") := by
  intro cells
  induction cells with
  | nil => intro h; exact absurd h (List.not_mem_nil _)
  | cons cell rest ih =>
      intro h
      rcases List.mem_cons.mp h with hh | ht
      · rw [← hh]
        rfl
      · match cell with
        | [] => rfl
        | r :: rs =>
          simp only [tableRowLoop, ih ht]
          rfl

/-- C10: rendering a `table_row` reads only the first inline run of
each cell — when every cell has at least one run, the result is exactly
the pipe-joined first-run texts — and an empty cell makes `rows[i][0]`
raise `IndexError` instead of producing a placeholder or an empty
cell. -/
theorem table_row_first_run_totality :
    (∀ (b : Block) (level : Nat), (∀ cell ∈ b.payload.cells, cell ≠ []) →
      handle_block_table_row b level = .ok ("|" ++ tableRowHeads b.payload.cells)) ∧
    (∀ (b : Block) (level : Nat), [] ∈ b.payload.cells →
      handle_block_table_row b level = .error (.indexError "list index out of range")) := by
  constructor
  · intro b level h
    simp only [handle_block_table_row, tableRowLoop_heads b.payload.cells h]
    rfl
  · intro b level h
    simp only [handle_block_table_row, tableRowLoop_err b.payload.cells h]
    rfl

/-- Witness for `table_row_first_run_totality`: a row whose single cell
holds the run `x` (plus a second, ignored run `y`) renders `|x|`; a row
with an empty cell raises. -/
theorem table_row_first_run_totality_witness :
    handle_block_table_row
        (.mk "table_row" false
          { cells := [[{ type := "text", plain_text := "x" },
                       { type := "text", plain_text := "y" }]] } .nil) 0 =
      .ok "|x|" ∧
    handle_block_table_row (.mk "table_row" false { cells := [[]] } .nil) 0 =
      .error (.indexError "list index out of range") :=
  ⟨table_row_first_run_totality.1
      (.mk "table_row" false
        { cells := [[{ type := "text", plain_text := "x" },
                     { type := "text", plain_text := "y" }]] } .nil) 0 (by decide),
    table_row_first_run_totality.2 (.mk "table_row" false { cells := [[]] } .nil) 0 (by decide)⟩
